import Mathlib

/-!
Verification of the event-stream relay in `apps/api/stream.py`.

The Python module manages Redis-stream-backed Server-Sent-Event relays.
We embed its data model and control flow shallowly:

* Redis streams become an association list `Store` from channel key to an
  ordered list of entries with `Nat` ids (the sentinel cursor `"0"` becomes
  `0`; Redis guarantees strictly increasing auto-ids, which theorems assume
  via an explicit well-formedness hypothesis).
* Python dicts (`active_streams`, event field mappings, cursor maps) become
  association lists with Python's mutation semantics (`d[k] = v` updates in
  place or appends, `d.get`, `d.pop`).
* Each async generator (`stream_workflow_events`, `stream_file_analysis`,
  `stream_global_events`) becomes a function from a finite *schedule* of
  loop iterations to the list of emitted SSE messages.  A schedule step
  records what the environment does in that iteration: concurrent
  mutations of the shared `active_streams` registry (by `stop_stream` or by
  other subscriptions starting/finishing), the outcome of the `xread` call
  (a snapshot of the store to read from, a `redis.ConnectionError`, or
  another exception), and the outcome of the Temporal status query.
  An exhausted schedule means the analyzed window ended with the loop
  still running (`finished = false`); the `finally` block (registry pop and
  the `disconnected` message) runs exactly when the generator finishes.
* `_format_sse_message` serializes `(event_type, data)` to an SSE text
  frame; the serialization is injective on these components, so messages
  are kept structured as `Msg`.  Wall-clock timestamps
  (`datetime.utcnow().isoformat()`) are an input `now`.
* Run results carry ghost instrumentation (`deliveredIds`, `cycles`,
  `queriesIssued`) recording the ids of log entries delivered, loop
  iterations whose body executed, and Temporal status queries issued;
  these are specification-only observations of the run, not wire output.
-/

namespace PipAI

/-- Python dict `d.get(k)`: first binding for `k`, if any. -/
def pyGet {α : Type} (d : List (String × α)) (k : String) : Option α :=
  (d.find? (fun p => p.1 = k)).map (fun p => p.2)

/-- Python dict `d.get(k, dflt)`. -/
def pyGetD {α : Type} (d : List (String × α)) (k : String) (dflt : α) : α :=
  (pyGet d k).getD dflt

/-- Python dict `d[k] = v`: update the binding in place if present, else append. -/
def pySet {α : Type} : List (String × α) → String → α → List (String × α)
  | [], k, v => [(k, v)]
  | p :: d, k, v => if p.1 = k then (k, v) :: d else p :: pySet d k v

/-- Python dict `d.pop(k, None)`: remove the binding for `k` if present. -/
def pyPop {α : Type} (d : List (String × α)) (k : String) : List (String × α) :=
  d.filter (fun p => ¬ p.1 = k)

/-- Python `{**base, **extra}` / dict-literal merge: later keys override. -/
def pyMerge {α : Type} (base extra : List (String × α)) : List (String × α) :=
  extra.foldl (fun d p => pySet d p.1 p.2) base

/-- Constant `STREAM_KEYS` from `stream.py` (module level). -/
def STREAM_KEYS : List (String × String) :=
  [("workflow_progress", "pip-ai:workflow:progress"),
   ("file_analysis", "pip-ai:analysis:progress"),
   ("ai_processing", "pip-ai:ai:progress"),
   ("notifications", "pip-ai:notifications")]

/-- One entry of a Redis stream: auto-generated id plus field mapping. -/
structure Entry where
  id : Nat
  fields : List (String × String)
deriving DecidableEq, Repr

/-- The Redis database restricted to streams: channel key ↦ ordered entries. -/
abbrev Store := List (String × List Entry)

/-- Entries currently stored on a channel (empty when the key is absent). -/
def storeGet (s : Store) (k : String) : List Entry :=
  pyGetD s k []

/-- Next auto-generated id on a channel: greater than every stored id. -/
def nextId (es : List Entry) : Nat :=
  (es.map (fun e => e.id)).foldr max 0 + 1

/-- Redis `XADD key fields MAXLEN maxlen`: append with a fresh increasing id,
then trim to the most recent `maxlen` entries. -/
def xadd (s : Store) (k : String) (fields : List (String × String)) (maxlen : Nat) : Store :=
  let es := storeGet s k
  let es1 := es ++ [⟨nextId es, fields⟩]
  pySet s k (es1.drop (es1.length - maxlen))

/-- Redis `XREAD COUNT count STREAMS k after`: up to `count` entries of
channel `k` with id greater than the cursor, oldest first. -/
def xread (s : Store) (k : String) (after : Nat) (count : Nat) : List Entry :=
  ((storeGet s k).filter (fun e => after < e.id)).take count

/-- A structured SSE message: `_format_sse_message(event_type, data)`
serializes exactly this pair as `event: ...\ndata: {json}\n\n`. -/
structure Msg where
  event_type : String
  data : List (String × String)
deriving DecidableEq, Repr

/-- Source `StreamManager._format_sse_message`, kept structured. -/
def format_sse_message (event_type : String) (data : List (String × String)) : Msg :=
  ⟨event_type, data⟩

/-- The `active_streams` dict: stream id ↦ liveness flag. -/
abbrev Registry := List (String × Bool)

/-- Source `StreamManager.stop_stream`: `self.active_streams[stream_id] = False`. -/
def stop_stream (reg : Registry) (stream_id : String) : Registry :=
  pySet reg stream_id false

/-- The count `len(stream_manager.active_streams)` reported by `/stream/health`. -/
def health_active_streams (reg : Registry) : Nat :=
  reg.length

/-- A mutation of the shared `active_streams` registry performed by a
concurrent task between the streaming loop's suspension points. -/
inductive ExternOp where
  /-- A call `stop_stream sid` (stop endpoint logic / client-disconnect check). -/
  | stopOp (sid : String)
  /-- another subscription registering: `active_streams[sid] = True`. -/
  | registerOp (sid : String)
  /-- another subscription's `finally`: `active_streams.pop(sid, None)`. -/
  | unregisterOp (sid : String)
deriving DecidableEq, Repr

def applyExtern (reg : Registry) : ExternOp → Registry
  | .stopOp sid => stop_stream reg sid
  | .registerOp sid => pySet reg sid true
  | .unregisterOp sid => pyPop reg sid

/-- Outcome of the `xread` call in one loop iteration. -/
inductive ReadAction where
  /-- the call succeeds against this snapshot of the Redis store. -/
  | fromStore (store : Store)
  /-- Exception `redis.ConnectionError` raised. -/
  | connLost
  /-- any other exception raised, with its `str(e)`. -/
  | failure (msg : String)
deriving DecidableEq, Repr

/-- Outcome of `handle.query("getAnalysisStatus")` in one loop iteration. -/
inductive QueryResult where
  /-- the query returns this status value. -/
  | ok (status : String)
  /-- the query raises (workflow completed / query unsupported / not found). -/
  | failed
deriving DecidableEq, Repr

/-- Environment behavior for one iteration of a streaming loop. -/
structure Step where
  ops : List ExternOp
  read : ReadAction
  query : QueryResult
deriving DecidableEq, Repr

/-- Observable outcome of running a streaming generator over a schedule. -/
structure RunResult where
  /-- SSE messages emitted, in order. -/
  events : List Msg
  /-- final state of `active_streams`. -/
  reg : Registry
  /-- whether the generator ran to completion (its `finally` executed). -/
  finished : Bool
  /-- ghost: ids of log entries delivered, in delivery order. -/
  deliveredIds : List Nat
  /-- ghost: iterations whose loop body executed. -/
  cycles : Nat
  /-- ghost: Temporal status queries issued. -/
  queriesIssued : Nat
deriving DecidableEq, Repr

/-- Lines 166-178: the Temporal query inside the loop body; a successful
query yields a `temporal_status` message, a raised exception is logged at
debug level and yields nothing. -/
def temporalMsgs (wid now : String) : QueryResult → List Msg
  | .ok status =>
    [format_sse_message "temporal_status"
      [("workflow_id", wid), ("status", status), ("timestamp", now)]]
  | .failed => []

/-- The `while self.active_streams.get(workflow_id, False)` loop of
`StreamManager.stream_workflow_events` (lines 144-194). -/
def wfLoop (wid : String) (hasTemporal : Bool) (now : String) :
    Nat → List Step → Registry → RunResult
  | _, [], reg => ⟨[], reg, false, [], 0, 0⟩
  | last_id, step :: rest, reg =>
    let reg1 := step.ops.foldl applyExtern reg
    if pyGetD reg1 wid false = false then
      ⟨[], reg1, true, [], 0, 0⟩
    else
      match step.read with
      | .connLost =>
        ⟨[format_sse_message "error"
            [("message", "Redis connection lost"), ("timestamp", now)]],
         reg1, true, [], 1, 0⟩
      | .failure m =>
        let r := wfLoop wid hasTemporal now last_id rest reg1
        ⟨format_sse_message "error" [("message", m), ("timestamp", now)] :: r.events,
         r.reg, r.finished, r.deliveredIds, r.cycles + 1, r.queriesIssued⟩
      | .fromStore store =>
        let entries := xread store (wid ++ ":progress") last_id 10
        let msgs := entries.map (fun e =>
          format_sse_message (pyGetD e.fields "event_type" "progress") e.fields)
        let last1 := entries.foldl (fun _ e => e.id) last_id
        let tMsgs := if hasTemporal then temporalMsgs wid now step.query else []
        let tCount : Nat := if hasTemporal then 1 else 0
        let r := wfLoop wid hasTemporal now last1 rest reg1
        ⟨msgs ++ tMsgs ++ r.events, r.reg, r.finished,
         entries.map (fun e => e.id) ++ r.deliveredIds,
         r.cycles + 1, r.queriesIssued + tCount⟩

/-- Source `StreamManager.stream_workflow_events` (lines 127-201): guard on a
missing Redis client, registration, `connected`, the loop, and the
`finally` block (registry pop, `disconnected`). -/
def stream_workflow_events (hasRedis hasTemporal : Bool) (now wid : String)
    (sched : List Step) (reg : Registry) : RunResult :=
  if hasRedis = false then
    ⟨[format_sse_message "error" [("message", "Redis not connected")]],
     reg, true, [], 0, 0⟩
  else
    let reg1 := pySet reg wid true
    let conn := format_sse_message "connected" [("workflow_id", wid), ("timestamp", now)]
    let r := wfLoop wid hasTemporal now 0 sched reg1
    if r.finished then
      ⟨conn :: r.events ++
        [format_sse_message "disconnected" [("workflow_id", wid), ("timestamp", now)]],
       pyPop r.reg wid, true, r.deliveredIds, r.cycles, r.queriesIssued⟩
    else
      ⟨conn :: r.events, r.reg, false, r.deliveredIds, r.cycles, r.queriesIssued⟩

/-- The `while self.active_streams.get(file_id, False)` loop of
`StreamManager.stream_file_analysis` (lines 219-245): identical to the
workflow loop except for the channel key `f"{file_id}:analysis"`, the
default event type `"analysis"`, the absence of the Temporal section and
the leaner error payloads. -/
def faLoop (fid : String) (now : String) :
    Nat → List Step → Registry → RunResult
  | _, [], reg => ⟨[], reg, false, [], 0, 0⟩
  | last_id, step :: rest, reg =>
    let reg1 := step.ops.foldl applyExtern reg
    if pyGetD reg1 fid false = false then
      ⟨[], reg1, true, [], 0, 0⟩
    else
      match step.read with
      | .connLost =>
        ⟨[format_sse_message "error" [("message", "Redis connection lost")]],
         reg1, true, [], 1, 0⟩
      | .failure m =>
        let r := faLoop fid now last_id rest reg1
        ⟨format_sse_message "error" [("message", m)] :: r.events,
         r.reg, r.finished, r.deliveredIds, r.cycles + 1, r.queriesIssued⟩
      | .fromStore store =>
        let entries := xread store (fid ++ ":analysis") last_id 10
        let msgs := entries.map (fun e =>
          format_sse_message (pyGetD e.fields "event_type" "analysis") e.fields)
        let last1 := entries.foldl (fun _ e => e.id) last_id
        let r := faLoop fid now last1 rest reg1
        ⟨msgs ++ r.events, r.reg, r.finished,
         entries.map (fun e => e.id) ++ r.deliveredIds,
         r.cycles + 1, r.queriesIssued⟩

/-- Source `StreamManager.stream_file_analysis` (lines 203-252). -/
def stream_file_analysis (hasRedis : Bool) (now fid : String)
    (sched : List Step) (reg : Registry) : RunResult :=
  if hasRedis = false then
    ⟨[format_sse_message "error" [("message", "Redis not connected")]],
     reg, true, [], 0, 0⟩
  else
    let reg1 := pySet reg fid true
    let conn := format_sse_message "connected" [("file_id", fid), ("timestamp", now)]
    let r := faLoop fid now 0 sched reg1
    if r.finished then
      ⟨conn :: r.events ++
        [format_sse_message "disconnected" [("file_id", fid), ("timestamp", now)]],
       pyPop r.reg fid, true, r.deliveredIds, r.cycles, r.queriesIssued⟩
    else
      ⟨conn :: r.events, r.reg, false, r.deliveredIds, r.cycles, r.queriesIssued⟩

/-- Source `StreamManager._is_user_event` (lines 316-322): `event_data.get("user_id")
== user_id` (a missing key gives `None`, never equal to a string) or the
`workflow_id` / `file_id` field starting with `f"user:{user_id}:"`. -/
def is_user_event (event_data : List (String × String)) (user_id : String) : Bool :=
  pyGet event_data "user_id" = some user_id ||
  (pyGetD event_data "workflow_id" "").startsWith ("user:" ++ user_id ++ ":") ||
  (pyGetD event_data "file_id" "").startsWith ("user:" ++ user_id ++ ":")

/-- Redis `XREAD` over a cursor dict (multi-stream form used by
`stream_global_events`): per requested channel, up to `count` entries past
its cursor; channels with no new data are omitted from the reply. -/
def xreadMulti (s : Store) (cursors : List (String × Nat)) (count : Nat) :
    List (String × List Entry) :=
  (cursors.map (fun p => (p.1, xread s p.1 p.2 count))).filter
    (fun p => ¬ p.2 = [])

/-- The inner `for message_id, fields in messages` loop of
`stream_global_events` (lines 281-288): advance `last_ids[stream_name]`
for every message, emit only those passing `_is_user_event`. -/
def deliverChan (uid name : String) :
    List Entry → List (String × Nat) → List Msg × List (String × Nat)
  | [], cursors => ([], cursors)
  | e :: es, cursors =>
    let rest := deliverChan uid name es (pySet cursors name e.id)
    (if is_user_event e.fields uid then
       format_sse_message (pyGetD e.fields "event_type" "notification") e.fields :: rest.1
     else rest.1,
     rest.2)

/-- The outer `for stream_name, messages in streams` loop of
`stream_global_events` (lines 280-288). -/
def deliverChans (uid : String) :
    List (String × List Entry) → List (String × Nat) → List Msg × List (String × Nat)
  | [], cursors => ([], cursors)
  | (name, msgs) :: chans, cursors =>
    let first := deliverChan uid name msgs cursors
    let rest := deliverChans uid chans first.2
    (first.1 ++ rest.1, rest.2)

/-- Observable outcome of running the merged per-user generator. -/
structure GRunResult where
  events : List Msg
  reg : Registry
  finished : Bool
  /-- ghost: (channel, id) of every entry read (cursor-advancing), in order. -/
  readPairs : List (String × Nat)
  cycles : Nat
deriving DecidableEq, Repr

/-- The `while self.active_streams.get(stream_key, False)` loop of
`StreamManager.stream_global_events` (lines 270-299), threading the
`last_ids` cursor dict. -/
def geLoop (uid : String) (now : String) :
    List (String × Nat) → List Step → Registry → GRunResult
  | _, [], reg => ⟨[], reg, false, [], 0⟩
  | cursors, step :: rest, reg =>
    let skey := "user:" ++ uid ++ ":events"
    let reg1 := step.ops.foldl applyExtern reg
    if pyGetD reg1 skey false = false then
      ⟨[], reg1, true, [], 0⟩
    else
      match step.read with
      | .connLost =>
        ⟨[format_sse_message "error" [("message", "Redis connection lost")]],
         reg1, true, [], 1⟩
      | .failure m =>
        let r := geLoop uid now cursors rest reg1
        ⟨format_sse_message "error" [("message", m)] :: r.events,
         r.reg, r.finished, r.readPairs, r.cycles + 1⟩
      | .fromStore store =>
        let streams := xreadMulti store cursors 5
        let cycle := deliverChans uid streams cursors
        let r := geLoop uid now cycle.2 rest reg1
        ⟨cycle.1 ++ r.events, r.reg, r.finished,
         (streams.map (fun p => p.2.map (fun e => (p.1, e.id)))).flatten ++ r.readPairs,
         r.cycles + 1⟩

/-- Source `StreamManager.stream_global_events` (lines 254-306): cursors seed at
the sentinel for every channel in `STREAM_KEYS.values()`; the registry key
is `f"user:{user_id}:events"`. -/
def stream_global_events (hasRedis : Bool) (now uid : String)
    (sched : List Step) (reg : Registry) : GRunResult :=
  if hasRedis = false then
    ⟨[format_sse_message "error" [("message", "Redis not connected")]],
     reg, true, [], 0⟩
  else
    let skey := "user:" ++ uid ++ ":events"
    let cursors0 := STREAM_KEYS.map (fun p => (p.2, 0))
    let reg1 := pySet reg skey true
    let conn := format_sse_message "connected" [("user_id", uid), ("timestamp", now)]
    let r := geLoop uid now cursors0 sched reg1
    if r.finished then
      ⟨conn :: r.events ++
        [format_sse_message "disconnected" [("user_id", uid), ("timestamp", now)]],
       pyPop r.reg skey, true, r.readPairs, r.cycles⟩
    else
      ⟨conn :: r.events, r.reg, false, r.readPairs, r.cycles⟩

/-- Source `StreamManager.publish_workflow_progress` (lines 83-103): no-op without
a Redis client; otherwise `XADD` to the fixed module-level channel
`STREAM_KEYS["workflow_progress"]` with `maxlen=1000`; any exception from
the append is caught and logged (`xaddFails` models that case). -/
def publish_workflow_progress (hasRedis xaddFails : Bool) (now wid : String)
    (data : List (String × String)) (store : Store) : Store :=
  if hasRedis = false then store
  else if xaddFails then store
  else
    let stream_data := pyMerge
      [("workflow_id", wid), ("timestamp", now), ("event_type", "workflow_progress")]
      data
    xadd store (pyGetD STREAM_KEYS "workflow_progress" "") stream_data 1000

/-- Source `StreamManager.publish_analysis_progress` (lines 105-125): same shape,
appending to the fixed channel `STREAM_KEYS["file_analysis"]`. -/
def publish_analysis_progress (hasRedis xaddFails : Bool) (now fid : String)
    (data : List (String × String)) (store : Store) : Store :=
  if hasRedis = false then store
  else if xaddFails then store
  else
    let stream_data := pyMerge
      [("file_id", fid), ("timestamp", now), ("event_type", "analysis_progress")]
      data
    xadd store (pyGetD STREAM_KEYS "file_analysis" "") stream_data 1000

/-- Endpoint `POST /stream/publish/workflow/{workflow_id}` (lines 409-413): publish,
then unconditionally answer `{"status": "published", "workflow_id": ...}`. -/
def publish_workflow_event (hasRedis xaddFails : Bool) (now wid : String)
    (data : List (String × String)) (store : Store) :
    Store × List (String × String) :=
  (publish_workflow_progress hasRedis xaddFails now wid data store,
   [("status", "published"), ("workflow_id", wid)])

/-- Endpoint `POST /stream/publish/analysis/{file_id}` (lines 415-419). -/
def publish_analysis_event (hasRedis xaddFails : Bool) (now fid : String)
    (data : List (String × String)) (store : Store) :
    Store × List (String × String) :=
  (publish_analysis_progress hasRedis xaddFails now fid data store,
   [("status", "published"), ("file_id", fid)])

/-- The channel key `stream_workflow_events` reads (line 134). -/
def workflowStreamKey (wid : String) : String := wid ++ ":progress"

/-- The channel key `stream_file_analysis` reads (line 210). -/
def fileStreamKey (fid : String) : String := fid ++ ":analysis"

/-- A channel is well-formed when its stored ids are strictly increasing
(what Redis guarantees for auto-generated stream ids). -/
def WFChannel (es : List Entry) : Prop :=
  List.Pairwise (fun a b => a < b) (es.map (fun e => e.id))

instance (es : List Entry) : Decidable (WFChannel es) :=
  inferInstanceAs (Decidable (List.Pairwise (fun a b => a < b) (es.map (fun e => Entry.id e))))

/-- A read outcome whose store (if any) has a well-formed channel `k`. -/
def readWF (k : String) : ReadAction → Prop
  | .fromStore store => WFChannel (storeGet store k)
  | .connLost => True
  | .failure _ => True

instance (k : String) : (a : ReadAction) → Decidable (readWF k a)
  | .fromStore store => inferInstanceAs (Decidable (WFChannel (storeGet store k)))
  | .connLost => .isTrue trivial
  | .failure _ => .isTrue trivial

/-- Every `xread` in the schedule hits a store whose channel `k` is
well-formed. -/
def WFSched (k : String) (sched : List Step) : Prop :=
  ∀ step ∈ sched, readWF k step.read

instance (k : String) (sched : List Step) : Decidable (WFSched k sched) :=
  inferInstanceAs (Decidable (∀ step ∈ sched, readWF k step.read))

/-- A successful read whose entries will not be emitted with event type
`"error"` (their `event_type` field, defaulted to `"progress"`, differs
from `"error"`). -/
def cleanRead (k : String) : ReadAction → Prop
  | .fromStore store =>
    ∀ e ∈ storeGet store k, ¬ pyGetD e.fields "event_type" "progress" = "error"
  | .connLost => False
  | .failure _ => False

instance (k : String) : (a : ReadAction) → Decidable (cleanRead k a)
  | .fromStore store =>
    inferInstanceAs
      (Decidable (∀ e ∈ storeGet store k, ¬ pyGetD e.fields "event_type" "progress" = "error"))
  | .connLost => .isFalse (fun h => h)
  | .failure _ => .isFalse (fun h => h)

/-- A schedule step performing no registry mutation whose read is clean. -/
def cleanStep (k : String) (step : Step) : Prop :=
  step.ops = [] ∧ cleanRead k step.read

instance (k : String) (step : Step) : Decidable (cleanStep k step) :=
  inferInstanceAs (Decidable (step.ops = [] ∧ cleanRead k step.read))

/-- A read outcome that is a successful `xread` (no exception). -/
def readOk : ReadAction → Prop
  | .fromStore _ => True
  | .connLost => False
  | .failure _ => False

instance : (a : ReadAction) → Decidable (readOk a)
  | .fromStore _ => .isTrue trivial
  | .connLost => .isFalse (fun h => h)
  | .failure _ => .isFalse (fun h => h)

/-- The query-independent part of a schedule step. -/
def stripQuery (step : Step) : List ExternOp × ReadAction :=
  (step.ops, step.read)

/-! ### Association-list (Python dict) lemmas -/

theorem pyGet_pySet_self {α : Type} (d : List (String × α)) (k : String) (v : α) :
    pyGet (pySet d k v) k = some v := by
  induction d with
  | nil => simp [pySet, pyGet]
  | cons p d ih =>
    by_cases h : p.1 = k
    · simp [pySet, pyGet, h]
    · simpa [pySet, pyGet, h] using ih

theorem pyGetD_pySet_self {α : Type} (d : List (String × α)) (k : String) (v dflt : α) :
    pyGetD (pySet d k v) k dflt = v := by
  simp [pyGetD, pyGet_pySet_self]

theorem pyGet_pySet_ne {α : Type} (d : List (String × α)) (k k' : String) (v : α)
    (h : ¬ k' = k) : pyGet (pySet d k v) k' = pyGet d k' := by
  induction d with
  | nil => simp [pySet, pyGet, h, Ne.symm h]
  | cons p d ih =>
    by_cases hp : p.1 = k
    · simp [pySet, pyGet, hp, h, Ne.symm h, List.find?]
    · by_cases hp' : p.1 = k'
      · simp [pySet, pyGet, hp, hp', h, Ne.symm h, List.find?]
      · simpa [pySet, pyGet, hp, hp', h, Ne.symm h, List.find?] using ih

theorem pyGet_pyPop_self {α : Type} (d : List (String × α)) (k : String) :
    pyGet (pyPop d k) k = none := by
  induction d with
  | nil => simp [pyPop, pyGet]
  | cons p d ih =>
    by_cases h : p.1 = k
    · simp only [pyPop, pyGet] at ih
      simp [pyPop, pyGet, h, ih]
    · simp only [pyPop, pyGet] at ih
      simp [pyPop, pyGet, h, List.find?, ih]

theorem pyGetD_pyPop_self {α : Type} (d : List (String × α)) (k : String) (dflt : α) :
    pyGetD (pyPop d k) k dflt = dflt := by
  simp [pyGetD, pyGet_pyPop_self]

theorem pySet_pySet_self {α : Type} (d : List (String × α)) (k : String) (v w : α) :
    pySet (pySet d k v) k w = pySet d k w := by
  induction d with
  | nil => simp [pySet]
  | cons p d ih =>
    by_cases h : p.1 = k
    · simp [pySet, h]
    · simp [pySet, h, ih]

theorem pySet_length_of_none {α : Type} (d : List (String × α)) (k : String) (v : α)
    (h : pyGet d k = none) : (pySet d k v).length = d.length + 1 := by
  induction d with
  | nil => simp [pySet]
  | cons p d ih =>
    by_cases hp : p.1 = k
    · simp [pyGet, List.find?, hp] at h
    · have h' : pyGet d k = none := by
        simpa [pyGet, List.find?, hp] using h
      simp only [pySet, if_neg hp, List.length_cons, ih h']

theorem pySet_length_of_some {α : Type} (d : List (String × α)) (k : String) (v : α)
    (h : ¬ pyGet d k = none) : (pySet d k v).length = d.length := by
  induction d with
  | nil => simp [pyGet] at h
  | cons p d ih =>
    by_cases hp : p.1 = k
    · simp [pySet, hp]
    · have h' : ¬ pyGet d k = none := by
        simpa [pyGet, List.find?, hp] using h
      simp only [pySet, if_neg hp, List.length_cons, ih h']

/-! ### xread and cursor-order lemmas -/

theorem xread_sublist (s : Store) (k : String) (c n : Nat) :
    List.Sublist ((xread s k c n).map (fun e => e.id))
      ((storeGet s k).map (fun e => e.id)) := by
  have h1 : List.Sublist (xread s k c n) (storeGet s k) :=
    (List.take_sublist n _).trans (List.filter_sublist _)
  exact h1.map (fun e => e.id)

theorem xread_mem_gt (s : Store) (k : String) (c n : Nat) (e : Entry)
    (h : e ∈ xread s k c n) : c < e.id := by
  have h1 : e ∈ (storeGet s k).filter (fun e => c < e.id) := List.mem_of_mem_take h
  have h2 := List.of_mem_filter h1
  exact of_decide_eq_true h2

/-- From a well-formed channel, a read past cursor `c` returns strictly
increasing ids, all above `c`. -/
theorem xread_pairwise_cons (s : Store) (k : String) (c n : Nat)
    (h : WFChannel (storeGet s k)) :
    List.Pairwise (fun a b => a < b) (c :: (xread s k c n).map (fun e => e.id)) := by
  rw [List.pairwise_cons]
  refine ⟨?_, h.sublist (xread_sublist s k c n)⟩
  intro a ha
  obtain ⟨e, he, rfl⟩ := List.mem_map.mp ha
  exact xread_mem_gt s k c n e he

theorem getLast?_cons_getD {α : Type} (a : α) (l : List α) :
    (a :: l).getLast? = some ((l.getLast?).getD a) := by
  induction l generalizing a with
  | nil => rfl
  | cons b t ih =>
    rw [List.getLast?_cons_cons, ih b]
    rfl

theorem foldl_pick_last (c : Nat) (entries : List Entry) :
    entries.foldl (fun _ e => e.id) c =
      ((entries.map (fun e => e.id)).getLast?).getD c := by
  induction entries generalizing c with
  | nil => rfl
  | cons e t ih =>
    rw [List.foldl_cons, ih, List.map_cons, getLast?_cons_getD]
    rfl

/-- Glue two strictly increasing runs at the cursor handed to the second. -/
theorem chain_lt_glue (c : Nat) (ids rest : List Nat)
    (h1 : List.Chain' (fun a b => a < b) (c :: ids))
    (h2 : List.Chain' (fun a b => a < b) ((ids.getLast?.getD c) :: rest)) :
    List.Chain' (fun a b => a < b) (c :: ids ++ rest) := by
  rw [show c :: ids ++ rest = (c :: ids) ++ rest from rfl, List.chain'_append]
  refine ⟨h1, (List.chain'_cons'.mp h2).2, ?_⟩
  intro x hx y hy
  rw [getLast?_cons_getD] at hx
  obtain rfl : ids.getLast?.getD c = x := by simpa using hx
  exact (List.chain'_cons'.mp h2).1 y hy

/-! ### Streaming-loop invariants -/

/-- Core invariant of the workflow loop: starting from cursor `c`, the ids
it delivers are strictly increasing and all above `c`; since the cursor is
always the most recently delivered id, this is also cursor monotonicity. -/
theorem wfLoop_chain (wid : String) (ht : Bool) (now : String) (sched : List Step) :
    ∀ (c : Nat) (reg : Registry), WFSched (workflowStreamKey wid) sched →
      List.Chain' (fun a b => a < b)
        (c :: (wfLoop wid ht now c sched reg).deliveredIds) := by
  induction sched with
  | nil =>
    intro c reg _
    simp [wfLoop]
  | cons step rest ih =>
    intro c reg hwf
    have hstep : readWF (workflowStreamKey wid) step.read :=
      hwf step (List.mem_cons_self _ _)
    have hrest : WFSched (workflowStreamKey wid) rest :=
      fun s hs => hwf s (List.mem_cons_of_mem _ hs)
    by_cases hlive : pyGetD (step.ops.foldl applyExtern reg) wid false = false
    · simp [wfLoop, hlive]
    · cases hread : step.read with
      | connLost => simp [wfLoop, hlive, hread]
      | failure m =>
        simpa [wfLoop, hlive, hread] using
          ih c (step.ops.foldl applyExtern reg) hrest
      | fromStore store =>
        have hch : WFChannel (storeGet store (workflowStreamKey wid)) := by
          rw [hread] at hstep
          exact hstep
        have h1 : List.Chain' (fun a b => a < b)
            (c :: (xread store (workflowStreamKey wid) c 10).map (fun e => e.id)) :=
          List.chain'_iff_pairwise.mpr (xread_pairwise_cons _ _ _ _ hch)
        have h2 := ih
          ((((xread store (workflowStreamKey wid) c 10).map (fun e => e.id)).getLast?).getD c)
          (step.ops.foldl applyExtern reg) hrest
        have hg := chain_lt_glue c _ _ h1 h2
        simpa [wfLoop, hlive, hread, foldl_pick_last, workflowStreamKey] using hg

/-- Same invariant for the file-analysis loop. -/
theorem faLoop_chain (fid : String) (now : String) (sched : List Step) :
    ∀ (c : Nat) (reg : Registry), WFSched (fileStreamKey fid) sched →
      List.Chain' (fun a b => a < b)
        (c :: (faLoop fid now c sched reg).deliveredIds) := by
  induction sched with
  | nil =>
    intro c reg _
    simp [faLoop]
  | cons step rest ih =>
    intro c reg hwf
    have hstep : readWF (fileStreamKey fid) step.read :=
      hwf step (List.mem_cons_self _ _)
    have hrest : WFSched (fileStreamKey fid) rest :=
      fun s hs => hwf s (List.mem_cons_of_mem _ hs)
    by_cases hlive : pyGetD (step.ops.foldl applyExtern reg) fid false = false
    · simp [faLoop, hlive]
    · cases hread : step.read with
      | connLost => simp [faLoop, hlive, hread]
      | failure m =>
        simpa [faLoop, hlive, hread] using
          ih c (step.ops.foldl applyExtern reg) hrest
      | fromStore store =>
        have hch : WFChannel (storeGet store (fileStreamKey fid)) := by
          rw [hread] at hstep
          exact hstep
        have h1 : List.Chain' (fun a b => a < b)
            (c :: (xread store (fileStreamKey fid) c 10).map (fun e => e.id)) :=
          List.chain'_iff_pairwise.mpr (xread_pairwise_cons _ _ _ _ hch)
        have h2 := ih
          ((((xread store (fileStreamKey fid) c 10).map (fun e => e.id)).getLast?).getD c)
          (step.ops.foldl applyExtern reg) hrest
        have hg := chain_lt_glue c _ _ h1 h2
        simpa [faLoop, hlive, hread, foldl_pick_last, fileStreamKey] using hg

/-- The wrapper neither adds nor reorders delivered entries. -/
theorem stream_workflow_events_deliveredIds (ht : Bool) (now wid : String)
    (sched : List Step) (reg : Registry) :
    (stream_workflow_events true ht now wid sched reg).deliveredIds =
      (wfLoop wid ht now 0 sched (pySet reg wid true)).deliveredIds := by
  by_cases h : (wfLoop wid ht now 0 sched (pySet reg wid true)).finished = true <;>
    simp [stream_workflow_events, h]

theorem stream_file_analysis_deliveredIds (now fid : String)
    (sched : List Step) (reg : Registry) :
    (stream_file_analysis true now fid sched reg).deliveredIds =
      (faLoop fid now 0 sched (pySet reg fid true)).deliveredIds := by
  by_cases h : (faLoop fid now 0 sched (pySet reg fid true)).finished = true <;>
    simp [stream_file_analysis, h]

/-! ### Claims -/

/-- C2: for every subscription (workflow or file) and the channel it owns,
over any schedule of loop iterations against well-formed channel data, the
delivered entry ids are strictly increasing from the sentinel cursor `0`;
since the recorded cursor (`last_id`) is at every moment either the
sentinel or the most recently delivered id, the cursor is monotonically
non-decreasing and no entry with id at or below it is ever re-delivered. -/
theorem C2_cursor_monotone_strict_delivery (wid fid : String) (ht : Bool) (now : String)
    (schedW schedF : List Step) (regW regF : Registry)
    (hW : WFSched (workflowStreamKey wid) schedW)
    (hF : WFSched (fileStreamKey fid) schedF) :
    List.Pairwise (fun a b => a < b)
      (0 :: (stream_workflow_events true ht now wid schedW regW).deliveredIds) ∧
    List.Pairwise (fun a b => a < b)
      (0 :: (stream_file_analysis true now fid schedF regF).deliveredIds) := by
  constructor
  · rw [stream_workflow_events_deliveredIds]
    exact List.chain'_iff_pairwise.mp (wfLoop_chain wid ht now schedW 0 _ hW)
  · rw [stream_file_analysis_deliveredIds]
    exact List.chain'_iff_pairwise.mp (faLoop_chain fid now schedF 0 _ hF)

theorem C2_cursor_monotone_strict_delivery_witness :
    WFSched (workflowStreamKey "w")
      [⟨[], .fromStore [("w:progress",
          [⟨1, [("event_type", "a")]⟩, ⟨4, []⟩])], .failed⟩,
       ⟨[], .fromStore [("w:progress",
          [⟨1, [("event_type", "a")]⟩, ⟨4, []⟩, ⟨6, []⟩])], .ok "running"⟩] ∧
    WFSched (fileStreamKey "f")
      [⟨[], .fromStore [("f:analysis", [⟨3, []⟩])], .failed⟩] ∧
    (List.Pairwise (fun a b => a < b)
      (0 :: (stream_workflow_events true true "t" "w"
        [⟨[], .fromStore [("w:progress",
            [⟨1, [("event_type", "a")]⟩, ⟨4, []⟩])], .failed⟩,
         ⟨[], .fromStore [("w:progress",
            [⟨1, [("event_type", "a")]⟩, ⟨4, []⟩, ⟨6, []⟩])], .ok "running"⟩] []).deliveredIds) ∧
     List.Pairwise (fun a b => a < b)
      (0 :: (stream_file_analysis true "t" "f"
        [⟨[], .fromStore [("f:analysis", [⟨3, []⟩])], .failed⟩] []).deliveredIds)) :=
  ⟨by decide, by decide,
   C2_cursor_monotone_strict_delivery "w" "f" true "t"
     [⟨[], .fromStore [("w:progress",
         [⟨1, [("event_type", "a")]⟩, ⟨4, []⟩])], .failed⟩,
      ⟨[], .fromStore [("w:progress",
         [⟨1, [("event_type", "a")]⟩, ⟨4, []⟩, ⟨6, []⟩])], .ok "running"⟩]
     [⟨[], .fromStore [("f:analysis", [⟨3, []⟩])], .failed⟩] [] []
     (by decide) (by decide)⟩

/-- Loop behavior of `stream_workflow_events` when the backend connection
is lost after a run of clean iterations: the loop breaks after emitting
exactly the connection-lost error, with the registry untouched. -/
theorem wfLoop_connLost (wid : String) (ht : Bool) (now : String) (pre : List Step) :
    ∀ (c : Nat) (reg : Registry), pyGetD reg wid false = true →
    (∀ step ∈ pre, cleanStep (workflowStreamKey wid) step) →
    ∀ (q : QueryResult) (post : List Step),
      (wfLoop wid ht now c (pre ++ ⟨[], .connLost, q⟩ :: post) reg).finished = true ∧
      (wfLoop wid ht now c (pre ++ ⟨[], .connLost, q⟩ :: post) reg).reg = reg ∧
      ∃ pfx,
        (wfLoop wid ht now c (pre ++ ⟨[], .connLost, q⟩ :: post) reg).events =
          pfx ++ [format_sse_message "error"
            [("message", "Redis connection lost"), ("timestamp", now)]] ∧
        pfx.filter (fun m => m.event_type == "error") = [] := by
  induction pre with
  | nil =>
    intro c reg hlive _ q post
    refine ⟨?_, ?_, [], ?_, rfl⟩ <;> simp [wfLoop, hlive]
  | cons s pre ih =>
    intro c reg hlive hpre q post
    obtain ⟨hops, hclean⟩ := hpre s (List.mem_cons_self _ _)
    have hpre' : ∀ step ∈ pre, cleanStep (workflowStreamKey wid) step :=
      fun st hst => hpre st (List.mem_cons_of_mem _ hst)
    cases hread : s.read with
    | connLost =>
      rw [hread] at hclean
      exact hclean.elim
    | failure m =>
      rw [hread] at hclean
      exact hclean.elim
    | fromStore store =>
      rw [hread] at hclean
      obtain ⟨hf, hr, pfx, hev, hfil⟩ :=
        ih ((xread store (wid ++ ":progress") c 10).foldl (fun _ e => e.id) c)
          reg hlive hpre' q post
      have hmsgs : ((xread store (wid ++ ":progress") c 10).map (fun e =>
          format_sse_message (pyGetD e.fields "event_type" "progress") e.fields)).filter
            (fun m => m.event_type == "error") = [] := by
        rw [List.filter_eq_nil_iff]
        intro m hm
        obtain ⟨e, he, rfl⟩ := List.mem_map.mp hm
        have h1 : e ∈ (storeGet store (wid ++ ":progress")).filter
            (fun e => decide (c < e.id)) := List.mem_of_mem_take he
        have he' : e ∈ storeGet store (wid ++ ":progress") := List.mem_of_mem_filter h1
        have hc := hclean e (by simpa [workflowStreamKey] using he')
        simpa [format_sse_message] using hc
      have htp : ((if ht then temporalMsgs wid now s.query else [])).filter
          (fun m => m.event_type == "error") = [] := by
        cases ht <;> cases s.query <;> simp [temporalMsgs, format_sse_message]
      refine ⟨?_, ?_, ((xread store (wid ++ ":progress") c 10).map (fun e =>
          format_sse_message (pyGetD e.fields "event_type" "progress") e.fields)) ++
          (if ht then temporalMsgs wid now s.query else []) ++ pfx, ?_, ?_⟩
      · simpa [wfLoop, hlive, hread, hops] using hf
      · simpa [wfLoop, hlive, hread, hops] using hr
      · simp [wfLoop, hlive, hread, hops, hev, List.append_assoc]
      · simp [List.filter_append, hmsgs, htp, hfil]

/-- C3: if the backend reports a lost connection (`redis.ConnectionError`)
mid-loop, after any run of clean iterations, the subscription emits exactly
one `error` event, its final two events are that `error` followed by
`disconnected`, nothing further is emitted, and the stream id is no longer
in `active_streams`. -/
theorem C3_backend_unavailable_teardown (wid : String) (ht : Bool) (now : String)
    (reg : Registry) (pre post : List Step) (q : QueryResult)
    (hpre : ∀ step ∈ pre, cleanStep (workflowStreamKey wid) step) :
    ((stream_workflow_events true ht now wid
        (pre ++ ⟨[], .connLost, q⟩ :: post) reg).events.filter
        (fun m => m.event_type == "error")).length = 1 ∧
    (∃ pfx, (stream_workflow_events true ht now wid
        (pre ++ ⟨[], .connLost, q⟩ :: post) reg).events =
      pfx ++
        [format_sse_message "error"
          [("message", "Redis connection lost"), ("timestamp", now)],
         format_sse_message "disconnected"
          [("workflow_id", wid), ("timestamp", now)]]) ∧
    pyGet (stream_workflow_events true ht now wid
        (pre ++ ⟨[], .connLost, q⟩ :: post) reg).reg wid = none := by
  have hlive : pyGetD (pySet reg wid true) wid false = true :=
    pyGetD_pySet_self reg wid true false
  obtain ⟨hf, hr, pfx, hev, hfil⟩ :=
    wfLoop_connLost wid ht now pre 0 (pySet reg wid true) hlive hpre q post
  refine ⟨?_, ⟨format_sse_message "connected"
      [("workflow_id", wid), ("timestamp", now)] :: pfx, ?_⟩, ?_⟩
  · simp [stream_workflow_events, hf, hev, List.filter_append, hfil,
      format_sse_message]
  · simp [stream_workflow_events, hf, hev, format_sse_message]
  · simp [stream_workflow_events, hf, hr, pyGet_pyPop_self]

theorem C3_backend_unavailable_teardown_witness :
    (∀ step ∈ [(⟨[], .fromStore
        [("w:progress", [⟨1, [("event_type", "uploaded")]⟩])], .failed⟩ : Step)],
      cleanStep (workflowStreamKey "w") step) ∧
    (((stream_workflow_events true false "t" "w"
        ([⟨[], .fromStore [("w:progress", [⟨1, [("event_type", "uploaded")]⟩])], .failed⟩] ++
          ⟨[], .connLost, .failed⟩ :: []) []).events.filter
        (fun m => m.event_type == "error")).length = 1 ∧
     (∃ pfx, (stream_workflow_events true false "t" "w"
        ([⟨[], .fromStore [("w:progress", [⟨1, [("event_type", "uploaded")]⟩])], .failed⟩] ++
          ⟨[], .connLost, .failed⟩ :: []) []).events =
       pfx ++
         [format_sse_message "error"
           [("message", "Redis connection lost"), ("timestamp", "t")],
          format_sse_message "disconnected"
           [("workflow_id", "w"), ("timestamp", "t")]]) ∧
     pyGet (stream_workflow_events true false "t" "w"
        ([⟨[], .fromStore [("w:progress", [⟨1, [("event_type", "uploaded")]⟩])], .failed⟩] ++
          ⟨[], .connLost, .failed⟩ :: []) []).reg "w" = none) :=
  ⟨by decide,
   C3_backend_unavailable_teardown "w" false "t" []
     [⟨[], .fromStore [("w:progress", [⟨1, [("event_type", "uploaded")]⟩])], .failed⟩]
     [] .failed (by decide)⟩

theorem getLast?_cons_append_singleton {α : Type} (a d : α) (l : List α) :
    (a :: (l ++ [d])).getLast? = some d := by
  rw [← List.cons_append, List.getLast?_concat]

/-- C4 (amended): for every stream kind, whenever the generator runs to
completion — explicit stop, client-disconnect stop, or backend loss at any
point *after* the initial connection check — its final emitted event is
`disconnected`.  (The original claim fails when the backend was never
connected: see the counterexample, where the only event is `error`.) -/
theorem C4_amended_terminal_disconnected (ht : Bool) (now wid fid uid : String)
    (sW sF sG : List Step) (rW rF rG : Registry)
    (hW : (stream_workflow_events true ht now wid sW rW).finished = true)
    (hF : (stream_file_analysis true now fid sF rF).finished = true)
    (hG : (stream_global_events true now uid sG rG).finished = true) :
    (stream_workflow_events true ht now wid sW rW).events.getLast? =
      some (format_sse_message "disconnected"
        [("workflow_id", wid), ("timestamp", now)]) ∧
    (stream_file_analysis true now fid sF rF).events.getLast? =
      some (format_sse_message "disconnected"
        [("file_id", fid), ("timestamp", now)]) ∧
    (stream_global_events true now uid sG rG).events.getLast? =
      some (format_sse_message "disconnected"
        [("user_id", uid), ("timestamp", now)]) := by
  refine ⟨?_, ?_, ?_⟩
  · by_cases hl : (wfLoop wid ht now 0 sW (pySet rW wid true)).finished = true
    · simp [stream_workflow_events, hl, getLast?_cons_append_singleton]
    · simp [stream_workflow_events, hl] at hW
  · by_cases hl : (faLoop fid now 0 sF (pySet rF fid true)).finished = true
    · simp [stream_file_analysis, hl, getLast?_cons_append_singleton]
    · simp [stream_file_analysis, hl] at hF
  · by_cases hl : (geLoop uid now (STREAM_KEYS.map (fun p => (p.2, 0))) sG
        (pySet rG ("user:" ++ uid ++ ":events") true)).finished = true
    · simp [stream_global_events, hl, getLast?_cons_append_singleton]
    · simp [stream_global_events, hl] at hG

theorem C4_amended_terminal_disconnected_witness :
    ((stream_workflow_events true true "t" "w"
        [⟨[.stopOp "w"], .fromStore [], .failed⟩] []).finished = true ∧
     (stream_file_analysis true "t" "f"
        [⟨[.stopOp "f"], .fromStore [], .failed⟩] []).finished = true ∧
     (stream_global_events true "t" "u"
        [⟨[.stopOp "user:u:events"], .fromStore [], .failed⟩] []).finished = true) ∧
    ((stream_workflow_events true true "t" "w"
        [⟨[.stopOp "w"], .fromStore [], .failed⟩] []).events.getLast? =
      some (format_sse_message "disconnected"
        [("workflow_id", "w"), ("timestamp", "t")]) ∧
     (stream_file_analysis true "t" "f"
        [⟨[.stopOp "f"], .fromStore [], .failed⟩] []).events.getLast? =
      some (format_sse_message "disconnected"
        [("file_id", "f"), ("timestamp", "t")]) ∧
     (stream_global_events true "t" "u"
        [⟨[.stopOp "user:u:events"], .fromStore [], .failed⟩] []).events.getLast? =
      some (format_sse_message "disconnected"
        [("user_id", "u"), ("timestamp", "t")])) :=
  ⟨⟨by decide, by decide, by decide⟩,
   C4_amended_terminal_disconnected true "t" "w" "f" "u"
     [⟨[.stopOp "w"], .fromStore [], .failed⟩]
     [⟨[.stopOp "f"], .fromStore [], .failed⟩]
     [⟨[.stopOp "user:u:events"], .fromStore [], .failed⟩] [] [] []
     (by decide) (by decide) (by decide)⟩

/-- C4 (counterexample): when the backend was never connected, every stream
kind emits a single `error` event and completes; the final event is *not*
`disconnected`, refuting the claim for the "backend never connected"
termination cause. -/
theorem C4_counterexample_no_backend :
    (stream_workflow_events false true "t" "w" [] []).finished = true ∧
    (stream_workflow_events false true "t" "w" [] []).events =
      [format_sse_message "error" [("message", "Redis not connected")]] ∧
    ¬ ((stream_workflow_events false true "t" "w" [] []).events.getLast? =
        some (format_sse_message "disconnected"
          [("workflow_id", "w"), ("timestamp", "t")])) ∧
    ¬ ((stream_workflow_events false true "t" "w"
        [] []).events.getLast?).map Msg.event_type = some "disconnected" := by
  decide

/-- C1: the publish/subscribe pipeline for file analysis is broken in the
code: `publish_analysis_progress` appends to the fixed module-level channel
`STREAM_KEYS["file_analysis"] = "pip-ai:analysis:progress"`, while
`stream_file_analysis` reads `f"{file_id}:analysis"`.  For file `"abc"` the
two keys differ, the store after publishing holds the event only under the
publish key, the subscription's channel stays empty, and a subscription
run over the post-publish store delivers nothing: the published event never
reaches the subscriber, contradicting the intended pairing of the
`/stream/publish/analysis/{file_id}` and `/stream/file/{file_id}`
endpoints. -/
theorem C1_publish_read_key_mismatch :
    pyGetD STREAM_KEYS "file_analysis" "" = "pip-ai:analysis:progress" ∧
    fileStreamKey "abc" = "abc:analysis" ∧
    ¬ pyGetD STREAM_KEYS "file_analysis" "" = fileStreamKey "abc" ∧
    storeGet (publish_analysis_progress true false "t0" "abc"
        [("event_type", "uploaded"), ("progress", "25")] [])
        "pip-ai:analysis:progress" =
      [⟨1, [("file_id", "abc"), ("timestamp", "t0"), ("event_type", "uploaded"),
            ("progress", "25")]⟩] ∧
    storeGet (publish_analysis_progress true false "t0" "abc"
        [("event_type", "uploaded"), ("progress", "25")] [])
        (fileStreamKey "abc") = [] ∧
    (stream_file_analysis true "t1" "abc"
        [⟨[], .fromStore (publish_analysis_progress true false "t0" "abc"
            [("event_type", "uploaded"), ("progress", "25")] []), .failed⟩,
         ⟨[.stopOp "abc"], .fromStore (publish_analysis_progress true false "t0" "abc"
            [("event_type", "uploaded"), ("progress", "25")] []), .failed⟩]
        []).deliveredIds = [] ∧
    (stream_file_analysis true "t1" "abc"
        [⟨[], .fromStore (publish_analysis_progress true false "t0" "abc"
            [("event_type", "uploaded"), ("progress", "25")] []), .failed⟩,
         ⟨[.stopOp "abc"], .fromStore (publish_analysis_progress true false "t0" "abc"
            [("event_type", "uploaded"), ("progress", "25")] []), .failed⟩]
        []).events =
      [format_sse_message "connected" [("file_id", "abc"), ("timestamp", "t1")],
       format_sse_message "disconnected" [("file_id", "abc"), ("timestamp", "t1")]] := by
  decide

/-- C7 (counterexample): `stop_stream` on an id absent from the registry is
not a frame-preserving no-op: `active_streams[stream_id] = False` inserts a
fresh binding, so the registry changes and the health endpoint's
`active_streams` count grows from 0 to 1. -/
theorem C7_counterexample_unknown_id_mutates :
    stop_stream [] "s1" = [("s1", false)] ∧
    health_active_streams ([] : Registry) = 0 ∧
    health_active_streams (stop_stream [] "s1") = 1 ∧
    ¬ stop_stream ([] : Registry) "s1" = ([] : Registry) := by
  decide

/-- C7 (amended): `stop_stream` is idempotent and total (no error on any
id), and on an id already present it leaves the health count unchanged;
but on an unknown id it inserts a `false` binding, increasing the reported
active-subscription count by one. -/
theorem C7_amended_stop_idempotent_but_inserts (reg : Registry) (sid : String) :
    stop_stream (stop_stream reg sid) sid = stop_stream reg sid ∧
    (pyGet reg sid = none →
      health_active_streams (stop_stream reg sid) = health_active_streams reg + 1) ∧
    (¬ pyGet reg sid = none →
      health_active_streams (stop_stream reg sid) = health_active_streams reg) :=
  ⟨pySet_pySet_self reg sid false false,
   fun h => pySet_length_of_none reg sid false h,
   fun h => pySet_length_of_some reg sid false h⟩

theorem C7_amended_stop_idempotent_but_inserts_witness :
    pyGet [("a", true)] "b" = none ∧
    health_active_streams (stop_stream [("a", true)] "b") =
      health_active_streams [("a", true)] + 1 :=
  ⟨by decide, (C7_amended_stop_idempotent_but_inserts [("a", true)] "b").2.1 (by decide)⟩

/-- C8 (counterexample): two subscriptions to the same workflow id share
one `active_streams` entry.  Both register (the second registration
overwrites the first).  While subscription B's loop runs, subscription A
completes and its `finally` pops the shared key: B — never stopped itself —
finds its liveness flag gone, terminates immediately and delivers nothing,
although a fresh entry was available.  Likewise one `stop_stream` of the
shared id makes *both* subscriptions' liveness checks false.  This refutes
lifecycle independence. -/
theorem C8_counterexample_shared_registry_key :
    pySet (pySet ([] : Registry) "w" true) "w" true = [("w", true)] ∧
    (wfLoop "w" false "t" 0
        [⟨[.unregisterOp "w"],
          .fromStore [("w:progress", [⟨1, [("event_type", "uploaded")]⟩])], .failed⟩]
        [("w", true)]).finished = true ∧
    (wfLoop "w" false "t" 0
        [⟨[.unregisterOp "w"],
          .fromStore [("w:progress", [⟨1, [("event_type", "uploaded")]⟩])], .failed⟩]
        [("w", true)]).deliveredIds = [] ∧
    (wfLoop "w" false "t" 0
        [⟨[.unregisterOp "w"],
          .fromStore [("w:progress", [⟨1, [("event_type", "uploaded")]⟩])], .failed⟩]
        [("w", true)]).events = [] ∧
    pyGetD (stop_stream [("w", true)] "w") "w" false = false := by
  decide

/-- Reading the whole channel: from the sentinel cursor, a single `xread`
returns every stored entry when the channel fits in one batch. -/
theorem xread_all (s : Store) (k : String)
    (hlen : (storeGet s k).length ≤ 10)
    (hpos : ∀ e ∈ storeGet s k, 0 < e.id) :
    xread s k 0 10 = storeGet s k := by
  unfold xread
  rw [List.filter_eq_self.mpr (fun e he => decide_eq_true (hpos e he))]
  exact List.take_of_length_le hlen

/-- C8 (amended): when two subscriptions attach independently to the same
channel and the channel's entries are available, each observes every entry
exactly once (the delivered ids equal the channel's ids, which are nodup),
with cursors that are local to each generator; but the lifecycles are
coupled through the shared `active_streams` key: after one subscription's
`finally` pops the key, the other's liveness check reads `false`. -/
theorem C8_amended_exactly_once_but_coupled (wid now : String) (ht : Bool)
    (store : Store) (regA regB : Registry)
    (hwf : WFChannel (storeGet store (workflowStreamKey wid)))
    (hlen : (storeGet store (workflowStreamKey wid)).length ≤ 10)
    (hpos : ∀ e ∈ storeGet store (workflowStreamKey wid), 0 < e.id) :
    (stream_workflow_events true ht now wid
        [⟨[], .fromStore store, .failed⟩, ⟨[.stopOp wid], .fromStore store, .failed⟩]
        regA).deliveredIds =
      (storeGet store (workflowStreamKey wid)).map (fun e => e.id) ∧
    (stream_workflow_events true ht now wid
        [⟨[], .fromStore store, .failed⟩, ⟨[.stopOp wid], .fromStore store, .failed⟩]
        regB).deliveredIds =
      (storeGet store (workflowStreamKey wid)).map (fun e => e.id) ∧
    ((storeGet store (workflowStreamKey wid)).map (fun e => e.id)).Nodup ∧
    (∀ reg : Registry, pyGetD (pyPop reg wid) wid false = false) := by
  have hx : xread store (wid ++ ":progress") 0 10 = storeGet store (wid ++ ":progress") :=
    xread_all store (wid ++ ":progress")
      (by simpa [workflowStreamKey] using hlen)
      (by simpa [workflowStreamKey] using hpos)
  have hone : ∀ reg : Registry,
      (stream_workflow_events true ht now wid
        [⟨[], .fromStore store, .failed⟩, ⟨[.stopOp wid], .fromStore store, .failed⟩]
        reg).deliveredIds =
      (storeGet store (workflowStreamKey wid)).map (fun e => e.id) := by
    intro reg
    rw [stream_workflow_events_deliveredIds]
    simp [wfLoop, pyGetD_pySet_self, applyExtern, stop_stream, pySet_pySet_self,
      hx, workflowStreamKey]
  refine ⟨hone regA, hone regB, ?_, fun reg => pyGetD_pyPop_self reg wid false⟩
  exact hwf.imp (fun h => Nat.ne_of_lt h)

theorem C8_amended_exactly_once_but_coupled_witness :
    (WFChannel (storeGet [("w:progress", [⟨2, []⟩, ⟨5, []⟩])] (workflowStreamKey "w")) ∧
     (storeGet [("w:progress", [⟨2, []⟩, ⟨5, []⟩])] (workflowStreamKey "w")).length ≤ 10 ∧
     (∀ e ∈ storeGet [("w:progress", [⟨2, []⟩, ⟨5, []⟩])] (workflowStreamKey "w"), 0 < e.id)) ∧
    (stream_workflow_events true false "t" "w"
        [⟨[], .fromStore [("w:progress", [⟨2, []⟩, ⟨5, []⟩])], .failed⟩,
         ⟨[.stopOp "w"], .fromStore [("w:progress", [⟨2, []⟩, ⟨5, []⟩])], .failed⟩]
        []).deliveredIds =
      (storeGet [("w:progress", [⟨2, []⟩, ⟨5, []⟩])] (workflowStreamKey "w")).map
        (fun e => e.id) :=
  ⟨⟨by decide, by decide, by decide⟩,
   (C8_amended_exactly_once_but_coupled "w" "t" false
     [("w:progress", [⟨2, []⟩, ⟨5, []⟩])] [] []
     (by decide) (by decide) (by decide)).1⟩

/-- C9 (counterexample): the Temporal status query is issued inside the
`while` loop body, once per poll cycle, with no slower cadence: a run of
two poll cycles issues two queries and emits one `temporal_status` event
in each cycle. -/
theorem C9_counterexample_query_every_cycle :
    (stream_workflow_events true true "t" "w"
      [⟨[], .fromStore [], .ok "running"⟩, ⟨[], .fromStore [], .ok "running"⟩,
       ⟨[.stopOp "w"], .fromStore [], .failed⟩] []).cycles = 2 ∧
    (stream_workflow_events true true "t" "w"
      [⟨[], .fromStore [], .ok "running"⟩, ⟨[], .fromStore [], .ok "running"⟩,
       ⟨[.stopOp "w"], .fromStore [], .failed⟩] []).queriesIssued = 2 ∧
    (stream_workflow_events true true "t" "w"
      [⟨[], .fromStore [], .ok "running"⟩, ⟨[], .fromStore [], .ok "running"⟩,
       ⟨[.stopOp "w"], .fromStore [], .failed⟩] []).events =
      [format_sse_message "connected" [("workflow_id", "w"), ("timestamp", "t")],
       format_sse_message "temporal_status"
         [("workflow_id", "w"), ("status", "running"), ("timestamp", "t")],
       format_sse_message "temporal_status"
         [("workflow_id", "w"), ("status", "running"), ("timestamp", "t")],
       format_sse_message "disconnected" [("workflow_id", "w"), ("timestamp", "t")]] := by
  decide

/-- Whenever a Temporal client is configured and no read raises, the loop
issues the status query on every executed poll cycle. -/
theorem wfLoop_query_per_cycle (wid now : String) (sched : List Step) :
    ∀ (c : Nat) (reg : Registry), (∀ step ∈ sched, readOk step.read) →
      (wfLoop wid true now c sched reg).queriesIssued =
        (wfLoop wid true now c sched reg).cycles := by
  induction sched with
  | nil =>
    intro c reg _
    simp [wfLoop]
  | cons s rest ih =>
    intro c reg hok
    have hs : readOk s.read := hok s (List.mem_cons_self _ _)
    have hrest : ∀ step ∈ rest, readOk step.read :=
      fun st hst => hok st (List.mem_cons_of_mem _ hst)
    by_cases hlive : pyGetD (s.ops.foldl applyExtern reg) wid false = false
    · simp [wfLoop, hlive]
    · cases hread : s.read with
      | connLost =>
        rw [hread] at hs
        exact hs.elim
      | failure m =>
        rw [hread] at hs
        exact hs.elim
      | fromStore store =>
        simpa [wfLoop, hlive, hread] using
          ih ((xread store (wid ++ ":progress") c 10).foldl (fun _ e => e.id) c)
            (s.ops.foldl applyExtern reg) hrest

/-- C9 (amended): the workflow status query runs at the *same* cadence as
the read long-poll, not a slower one — with a Temporal client configured,
every executed poll cycle whose read succeeds issues exactly one status
query (`queriesIssued = cycles`). -/
theorem C9_amended_query_same_cadence (now wid : String) (sched : List Step)
    (reg : Registry) (hok : ∀ step ∈ sched, readOk step.read) :
    (stream_workflow_events true true now wid sched reg).queriesIssued =
      (stream_workflow_events true true now wid sched reg).cycles := by
  have h := wfLoop_query_per_cycle wid now sched 0 (pySet reg wid true) hok
  by_cases hl : (wfLoop wid true now 0 sched (pySet reg wid true)).finished = true <;>
    simpa [stream_workflow_events, hl] using h

theorem C9_amended_query_same_cadence_witness :
    (∀ step ∈ [(⟨[], .fromStore [], .ok "running"⟩ : Step),
               ⟨[], .fromStore [], .failed⟩], readOk step.read) ∧
    (stream_workflow_events true true "t" "w"
        [⟨[], .fromStore [], .ok "running"⟩, ⟨[], .fromStore [], .failed⟩]
        []).queriesIssued =
      (stream_workflow_events true true "t" "w"
        [⟨[], .fromStore [], .ok "running"⟩, ⟨[], .fromStore [], .failed⟩]
        []).cycles :=
  ⟨by decide,
   C9_amended_query_same_cadence "t" "w"
     [⟨[], .fromStore [], .ok "running"⟩, ⟨[], .fromStore [], .failed⟩] []
     (by decide)⟩

/-- C10: both publish endpoints respond `{"status": "published", ...}`
unconditionally; with no Redis client configured, or when the append
raises (the exception is swallowed), the store is untouched — a
`published` response does not imply the event was stored. -/
theorem C10_publish_response_unconditional (hasRedis xaddFails : Bool)
    (now wid fid : String) (data : List (String × String)) (store : Store) :
    pyGet (publish_workflow_event hasRedis xaddFails now wid data store).2 "status" =
      some "published" ∧
    pyGet (publish_analysis_event hasRedis xaddFails now fid data store).2 "status" =
      some "published" ∧
    (hasRedis = false →
      (publish_workflow_event hasRedis xaddFails now wid data store).1 = store ∧
      (publish_analysis_event hasRedis xaddFails now fid data store).1 = store) ∧
    (xaddFails = true →
      (publish_workflow_event hasRedis xaddFails now wid data store).1 = store ∧
      (publish_analysis_event hasRedis xaddFails now fid data store).1 = store) := by
  refine ⟨by simp [publish_workflow_event, pyGet, List.find?],
          by simp [publish_analysis_event, pyGet, List.find?], ?_, ?_⟩
  · intro h
    subst h
    simp [publish_workflow_event, publish_analysis_event,
      publish_workflow_progress, publish_analysis_progress]
  · intro h
    subst h
    cases hasRedis <;>
      simp [publish_workflow_event, publish_analysis_event,
        publish_workflow_progress, publish_analysis_progress]

theorem C10_publish_response_unconditional_witness :
    pyGet (publish_workflow_event false true "t" "w" [("progress", "5")] []).2 "status" =
      some "published" ∧
    pyGet (publish_analysis_event false true "t" "f" [("progress", "5")] []).2 "status" =
      some "published" ∧
    (publish_workflow_event false true "t" "w" [("progress", "5")] []).1 = [] ∧
    (publish_analysis_event false true "t" "f" [("progress", "5")] []).1 = [] :=
  ⟨(C10_publish_response_unconditional false true "t" "w" "f" [("progress", "5")] []).1,
   (C10_publish_response_unconditional false true "t" "w" "f" [("progress", "5")] []).2.1,
   ((C10_publish_response_unconditional false true "t" "w" "f" [("progress", "5")] []).2.2.1
     rfl).1,
   ((C10_publish_response_unconditional false true "t" "w" "f" [("progress", "5")] []).2.2.1
     rfl).2⟩

theorem filter_out_temporalMsgs (wid now : String) (ht : Bool) (q : QueryResult) :
    (if ht then temporalMsgs wid now q else []).filter
      (fun m => !(m.event_type == "temporal_status")) = [] := by
  cases ht <;> cases q <;> simp [temporalMsgs, format_sse_message]

/-- The loop's delivered entries, termination, registry effect, cycle count
and non-`temporal_status` output are all independent of the Temporal query
outcomes: schedules agreeing on everything but query results produce the
same run up to `temporal_status` messages. -/
theorem wfLoop_query_independent (wid : String) (ht : Bool) (now : String)
    (s1 : List Step) :
    ∀ (s2 : List Step) (c : Nat) (reg : Registry),
      s1.map stripQuery = s2.map stripQuery →
      (wfLoop wid ht now c s1 reg).deliveredIds =
        (wfLoop wid ht now c s2 reg).deliveredIds ∧
      (wfLoop wid ht now c s1 reg).finished = (wfLoop wid ht now c s2 reg).finished ∧
      (wfLoop wid ht now c s1 reg).reg = (wfLoop wid ht now c s2 reg).reg ∧
      (wfLoop wid ht now c s1 reg).cycles = (wfLoop wid ht now c s2 reg).cycles ∧
      (wfLoop wid ht now c s1 reg).events.filter
          (fun m => !(m.event_type == "temporal_status")) =
        (wfLoop wid ht now c s2 reg).events.filter
          (fun m => !(m.event_type == "temporal_status")) := by
  induction s1 with
  | nil =>
    intro s2 c reg h
    have h2 : s2 = [] := List.map_eq_nil_iff.mp h.symm
    subst h2
    simp
  | cons s t ih =>
    intro s2 c reg h
    cases s2 with
    | nil => simp at h
    | cons s' t' =>
      simp only [List.map_cons, List.cons.injEq] at h
      obtain ⟨hst, htl⟩ := h
      have hops : s'.ops = s.ops := (congrArg Prod.fst hst).symm
      have hread : s'.read = s.read := (congrArg Prod.snd hst).symm
      by_cases hlive : pyGetD (s.ops.foldl applyExtern reg) wid false = false
      · simp [wfLoop, hlive, hops, hread]
      · cases hr : s.read with
        | connLost => simp [wfLoop, hlive, hops, hread, hr]
        | failure m =>
          obtain ⟨h1, h2, h3, h4, h5⟩ := ih t' c (s.ops.foldl applyExtern reg) htl
          simp [wfLoop, hlive, hops, hread, hr, h1, h2, h3, h4, h5,
            format_sse_message]
        | fromStore store =>
          obtain ⟨h1, h2, h3, h4, h5⟩ :=
            ih t' ((xread store (wid ++ ":progress") c 10).foldl (fun _ e => e.id) c)
              (s.ops.foldl applyExtern reg) htl
          simp [wfLoop, hlive, hops, hread, hr, h1, h2, h3, h4,
            List.filter_append, filter_out_temporalMsgs, h5]

/-- C6: a failing workflow status query — `NotFound`, `QueryUnsupported`,
a completed workflow, or any other exception caught by the `except` around
`handle.query` — never terminates the subscription and never affects which
log entries are delivered: runs whose schedules differ only in query
outcomes deliver the same entry ids, finish identically, leave the same
registry, run the same number of cycles, and emit the same events apart
from `temporal_status` messages. -/
theorem C6_query_failure_never_terminates (ht : Bool) (now wid : String)
    (s1 s2 : List Step) (reg : Registry)
    (h : s1.map stripQuery = s2.map stripQuery) :
    (stream_workflow_events true ht now wid s1 reg).deliveredIds =
      (stream_workflow_events true ht now wid s2 reg).deliveredIds ∧
    (stream_workflow_events true ht now wid s1 reg).finished =
      (stream_workflow_events true ht now wid s2 reg).finished ∧
    (stream_workflow_events true ht now wid s1 reg).reg =
      (stream_workflow_events true ht now wid s2 reg).reg ∧
    (stream_workflow_events true ht now wid s1 reg).events.filter
        (fun m => !(m.event_type == "temporal_status")) =
      (stream_workflow_events true ht now wid s2 reg).events.filter
        (fun m => !(m.event_type == "temporal_status")) := by
  obtain ⟨h1, h2, h3, h4, h5⟩ :=
    wfLoop_query_independent wid ht now s1 s2 0 (pySet reg wid true) h
  by_cases hl : (wfLoop wid ht now 0 s1 (pySet reg wid true)).finished = true
  · have hl2 : (wfLoop wid ht now 0 s2 (pySet reg wid true)).finished = true := by
      rw [← h2]
      exact hl
    simp [stream_workflow_events, hl, hl2, h1, h3, List.filter_append, h5,
      format_sse_message]
  · have hl2 : ¬ (wfLoop wid ht now 0 s2 (pySet reg wid true)).finished = true := by
      rw [← h2]
      exact hl
    simp [stream_workflow_events, hl, hl2, h1, h3, h5, format_sse_message]

theorem C6_query_failure_never_terminates_witness :
    ([(⟨[], .fromStore [("w:progress", [⟨1, [("event_type", "uploaded")]⟩])],
         .failed⟩ : Step),
      ⟨[.stopOp "w"], .fromStore [], .failed⟩].map stripQuery =
     [(⟨[], .fromStore [("w:progress", [⟨1, [("event_type", "uploaded")]⟩])],
         .ok "running"⟩ : Step),
      ⟨[.stopOp "w"], .fromStore [], .ok "done"⟩].map stripQuery) ∧
    (stream_workflow_events true true "t" "w"
        [⟨[], .fromStore [("w:progress", [⟨1, [("event_type", "uploaded")]⟩])],
           .failed⟩,
         ⟨[.stopOp "w"], .fromStore [], .failed⟩] []).deliveredIds =
      (stream_workflow_events true true "t" "w"
        [⟨[], .fromStore [("w:progress", [⟨1, [("event_type", "uploaded")]⟩])],
           .ok "running"⟩,
         ⟨[.stopOp "w"], .fromStore [], .ok "done"⟩] []).deliveredIds :=
  ⟨by decide,
   (C6_query_failure_never_terminates true "t" "w"
     [⟨[], .fromStore [("w:progress", [⟨1, [("event_type", "uploaded")]⟩])], .failed⟩,
      ⟨[.stopOp "w"], .fromStore [], .failed⟩]
     [⟨[], .fromStore [("w:progress", [⟨1, [("event_type", "uploaded")]⟩])], .ok "running"⟩,
      ⟨[.stopOp "w"], .fromStore [], .ok "done"⟩] [] (by decide)).1⟩

/-! ### Merged per-user cycle lemmas (for C5) -/

theorem deliverChan_fst (uid name : String) (msgs : List Entry) :
    ∀ cur, (deliverChan uid name msgs cur).1 =
      (msgs.filter (fun e => is_user_event e.fields uid)).map (fun e =>
        format_sse_message (pyGetD e.fields "event_type" "notification") e.fields) := by
  induction msgs with
  | nil => intro cur; rfl
  | cons e es ih =>
    intro cur
    by_cases hP : is_user_event e.fields uid
    · simp [deliverChan, hP, ih]
    · simp [deliverChan, hP, ih]

theorem deliverChan_snd (uid name : String) (msgs : List Entry) :
    ∀ cur, (deliverChan uid name msgs cur).2 =
      msgs.foldl (fun c e => pySet c name e.id) cur := by
  induction msgs with
  | nil => intro cur; rfl
  | cons e es ih =>
    intro cur
    simp [deliverChan, ih]

theorem deliverChans_fst (uid : String) (chans : List (String × List Entry)) :
    ∀ cur, (deliverChans uid chans cur).1 =
      (chans.map (fun p =>
        (p.2.filter (fun e => is_user_event e.fields uid)).map (fun e =>
          format_sse_message (pyGetD e.fields "event_type" "notification")
            e.fields))).flatten := by
  induction chans with
  | nil => intro cur; rfl
  | cons p rest ih =>
    intro cur
    simp [deliverChans, deliverChan_fst, ih]

theorem pyGetD_foldl_pySet_self (name : String) (msgs : List Entry) (d : Nat) :
    ∀ cur : List (String × Nat),
      pyGetD (msgs.foldl (fun c e => pySet c name e.id) cur) name d =
        ((msgs.map (fun e => e.id)).getLast?).getD (pyGetD cur name d) := by
  induction msgs with
  | nil => intro cur; rfl
  | cons e es ih =>
    intro cur
    rw [List.foldl_cons, ih, List.map_cons, getLast?_cons_getD,
      pyGetD_pySet_self]
    rfl

theorem pyGetD_foldl_pySet_ne (name other : String) (msgs : List Entry) (d : Nat)
    (h : ¬ other = name) :
    ∀ cur : List (String × Nat),
      pyGetD (msgs.foldl (fun c e => pySet c name e.id) cur) other d =
        pyGetD cur other d := by
  induction msgs with
  | nil => intro cur; rfl
  | cons e es ih =>
    intro cur
    rw [List.foldl_cons, ih]
    simp [pyGetD, pyGet_pySet_ne _ _ _ _ h]

theorem pyGetD_deliverChans_notmem (uid name : String) (d : Nat)
    (chans : List (String × List Entry))
    (h : ¬ name ∈ chans.map Prod.fst) :
    ∀ cur, pyGetD (deliverChans uid chans cur).2 name d = pyGetD cur name d := by
  induction chans with
  | nil => intro cur; rfl
  | cons p rest ih =>
    intro cur
    simp only [List.map_cons, List.mem_cons] at h
    push_neg at h
    simp only [deliverChans]
    rw [ih h.2, deliverChan_snd, pyGetD_foldl_pySet_ne _ _ _ _ h.1]

theorem pyGetD_deliverChans_mem (uid name : String) (d : Nat) (msgs : List Entry)
    (chans : List (String × List Entry))
    (hnd : (chans.map Prod.fst).Nodup) (hm : (name, msgs) ∈ chans) :
    ∀ cur, pyGetD (deliverChans uid chans cur).2 name d =
      ((msgs.map (fun e => e.id)).getLast?).getD (pyGetD cur name d) := by
  induction chans with
  | nil => exact absurd hm (List.not_mem_nil _)
  | cons p rest ih =>
    intro cur
    rw [List.map_cons, List.nodup_cons] at hnd
    rcases List.mem_cons.mp hm with heq | hmem
    · obtain ⟨rfl, rfl⟩ : p.1 = name ∧ p.2 = msgs := by
        constructor <;> rw [← heq]
      simp only [deliverChans]
      rw [pyGetD_deliverChans_notmem uid p.1 d rest hnd.1,
        deliverChan_snd, pyGetD_foldl_pySet_self]
    · have hne : ¬ name = p.1 := by
        intro hcontra
        exact hnd.1 (hcontra ▸ List.mem_map_of_mem Prod.fst hmem)
      simp only [deliverChans]
      rw [ih hnd.2 hmem, deliverChan_snd, pyGetD_foldl_pySet_ne _ _ _ _ hne]

theorem le_of_pairwise_getLast? (l : List Nat)
    (hp : List.Pairwise (fun a b => a < b) l) :
    ∀ x ∈ l, ∀ y, l.getLast? = some y → x ≤ y := by
  induction l with
  | nil => intro x hx; exact absurd hx (List.not_mem_nil _)
  | cons a t ih =>
    intro x hx y hy
    rw [List.pairwise_cons] at hp
    cases t with
    | nil =>
      obtain rfl : a = y := by simpa using hy
      obtain rfl : x = a := by simpa using hx
      exact le_rfl
    | cons b t' =>
      rw [List.getLast?_cons_cons] at hy
      rcases List.mem_cons.mp hx with rfl | hxt
      · have hb : b ≤ y := ih hp.2 b (List.mem_cons_self _ _) y hy
        exact le_of_lt (lt_of_lt_of_le (hp.1 b (List.mem_cons_self _ _)) hb)
      · exact ih hp.2 x hxt y hy

theorem mem_keys_pySet {α : Type} (d : List (String × α)) (k a : String) (v : α)
    (h : a ∈ (pySet d k v).map Prod.fst) : a ∈ d.map Prod.fst ∨ a = k := by
  induction d with
  | nil => simpa [pySet] using h
  | cons p rest ih =>
    by_cases hp : p.1 = k
    · simp only [pySet, if_pos hp, List.map_cons, List.mem_cons] at h
      rcases h with rfl | h
      · exact Or.inr rfl
      · exact Or.inl (by simp [h])
    · simp only [pySet, if_neg hp, List.map_cons, List.mem_cons] at h
      rcases h with rfl | h
      · exact Or.inl (by simp)
      · rcases ih h with h1 | h1
        · exact Or.inl (by simp [h1])
        · exact Or.inr h1

theorem nodup_keys_pySet {α : Type} (d : List (String × α)) (k : String) (v : α)
    (h : (d.map Prod.fst).Nodup) : ((pySet d k v).map Prod.fst).Nodup := by
  induction d with
  | nil => simp [pySet]
  | cons p rest ih =>
    rw [List.map_cons, List.nodup_cons] at h
    by_cases hp : p.1 = k
    · simp only [pySet, if_pos hp, List.map_cons, List.nodup_cons]
      exact ⟨hp ▸ h.1, h.2⟩
    · simp only [pySet, if_neg hp, List.map_cons, List.nodup_cons]
      refine ⟨?_, ih h.2⟩
      intro hmem
      rcases mem_keys_pySet rest k p.1 v hmem with h1 | h1
      · exact h.1 h1
      · exact hp h1

theorem nodup_keys_foldl_pySet (name : String) (msgs : List Entry) :
    ∀ cur : List (String × Nat), (cur.map Prod.fst).Nodup →
      ((msgs.foldl (fun c e => pySet c name e.id) cur).map Prod.fst).Nodup := by
  induction msgs with
  | nil => intro cur h; exact h
  | cons e es ih =>
    intro cur h
    rw [List.foldl_cons]
    exact ih _ (nodup_keys_pySet cur name e.id h)

theorem nodup_keys_deliverChans (uid : String) (chans : List (String × List Entry)) :
    ∀ cur : List (String × Nat), (cur.map Prod.fst).Nodup →
      (((deliverChans uid chans cur).2).map Prod.fst).Nodup := by
  induction chans with
  | nil => intro cur h; exact h
  | cons p rest ih =>
    intro cur h
    simp only [deliverChans]
    refine ih _ ?_
    rw [deliverChan_snd]
    exact nodup_keys_foldl_pySet p.1 p.2 cur h

theorem pyGet_of_mem_nodup {α : Type} (d : List (String × α)) (k : String) (v : α)
    (hm : (k, v) ∈ d) (hnd : (d.map Prod.fst).Nodup) : pyGet d k = some v := by
  induction d with
  | nil => exact absurd hm (List.not_mem_nil _)
  | cons p rest ih =>
    rw [List.map_cons, List.nodup_cons] at hnd
    rcases List.mem_cons.mp hm with heq | hmem
    · rw [← heq]
      simp [pyGet, List.find?]
    · have hne : ¬ p.1 = k := by
        intro hcontra
        exact hnd.1 (hcontra ▸ List.mem_map_of_mem Prod.fst hmem)
      simp only [pyGet, List.find?, hne]
      simpa [pyGet, hne] using ih hmem hnd.2

theorem mem_xreadMulti (s : Store) (cur : List (String × Nat)) (n : Nat)
    (pr : String × List Entry) (hpr : pr ∈ xreadMulti s cur n) :
    ∃ c0, (pr.1, c0) ∈ cur ∧ pr.2 = xread s pr.1 c0 n ∧ ¬ pr.2 = [] := by
  unfold xreadMulti at hpr
  rw [List.mem_filter] at hpr
  obtain ⟨hpr1, hpr2⟩ := hpr
  obtain ⟨q, hq, heq⟩ := List.mem_map.mp hpr1
  refine ⟨q.2, ?_, ?_, of_decide_eq_true hpr2⟩
  · have h1 : pr.1 = q.1 := by rw [← heq]
    rw [h1]
    simpa using hq
  · rw [← heq]

theorem keys_xreadMulti_sublist (s : Store) (cur : List (String × Nat)) (n : Nat) :
    List.Sublist ((xreadMulti s cur n).map Prod.fst) (cur.map Prod.fst) := by
  unfold xreadMulti
  have h0 : List.Sublist ((cur.map (fun p => (p.1, xread s p.1 p.2 n))).filter
      (fun p => ¬ p.2 = [])) (cur.map (fun p => (p.1, xread s p.1 p.2 n))) :=
    List.filter_sublist _
  have h1 := h0.map (Prod.fst (α := String) (β := List Entry))
  simpa [List.map_map, Function.comp] using h1

/-- C5: in one poll cycle of a merged per-user subscription, an entry read
from any channel is emitted iff `_is_user_event` holds of it, the
channel's cursor is advanced past every read entry whether or not it was
emitted, and consequently nothing read in this cycle — in particular no
suppressed entry — is returned by the next cycle's read. -/
theorem C5_filter_emits_cursor_advances (uid : String) (store : Store)
    (cursors : List (String × Nat))
    (hnd : (cursors.map Prod.fst).Nodup)
    (hwf : ∀ p ∈ cursors, WFChannel (storeGet store p.1)) :
    (deliverChans uid (xreadMulti store cursors 5) cursors).1 =
      ((xreadMulti store cursors 5).map (fun p =>
        (p.2.filter (fun e => is_user_event e.fields uid)).map (fun e =>
          format_sse_message (pyGetD e.fields "event_type" "notification")
            e.fields))).flatten ∧
    (∀ pr ∈ xreadMulti store cursors 5, ∀ e ∈ pr.2,
      e.id ≤ pyGetD (deliverChans uid (xreadMulti store cursors 5) cursors).2 pr.1 0) ∧
    (∀ pr ∈ xreadMulti store
        ((deliverChans uid (xreadMulti store cursors 5) cursors).2) 5,
      ∀ e ∈ pr.2, ∀ pr' ∈ xreadMulti store cursors 5, pr'.1 = pr.1 →
        ∀ e' ∈ pr'.2, e'.id < e.id) := by
  have hndS : ((xreadMulti store cursors 5).map Prod.fst).Nodup :=
    hnd.sublist (keys_xreadMulti_sublist store cursors 5)
  have part2 : ∀ pr ∈ xreadMulti store cursors 5, ∀ e ∈ pr.2,
      e.id ≤ pyGetD (deliverChans uid (xreadMulti store cursors 5) cursors).2 pr.1 0 := by
    intro pr hpr e he
    obtain ⟨c0, hc0, hread, hne⟩ := mem_xreadMulti store cursors 5 pr hpr
    have hprm : (pr.1, pr.2) ∈ xreadMulti store cursors 5 := by
      simpa using hpr
    rw [pyGetD_deliverChans_mem uid pr.1 0 pr.2 (xreadMulti store cursors 5) hndS hprm]
    cases hy : (pr.2.map (fun e => e.id)).getLast? with
    | none =>
      rw [List.getLast?_eq_none_iff] at hy
      exact absurd (List.map_eq_nil_iff.mp hy) hne
    | some y =>
      simp only [Option.getD_some]
      have hch : WFChannel (storeGet store pr.1) := hwf (pr.1, c0) hc0
      have hpair : List.Pairwise (fun a b => a < b) (pr.2.map (fun e => e.id)) := by
        rw [hread]
        exact (xread_pairwise_cons store pr.1 c0 5 hch).of_cons
      exact le_of_pairwise_getLast? _ hpair e.id
        (List.mem_map_of_mem _ he) y hy
  refine ⟨deliverChans_fst uid (xreadMulti store cursors 5) cursors, part2, ?_⟩
  intro pr hpr e he pr' hpr' hkey e' he'
  have hnd2 : (((deliverChans uid (xreadMulti store cursors 5) cursors).2).map
      Prod.fst).Nodup :=
    nodup_keys_deliverChans uid (xreadMulti store cursors 5) cursors hnd
  obtain ⟨c1, hc1, hread, hne⟩ := mem_xreadMulti store _ 5 pr hpr
  have hc1v : pyGetD (deliverChans uid (xreadMulti store cursors 5) cursors).2 pr.1 0 =
      c1 := by
    unfold pyGetD
    rw [pyGet_of_mem_nodup _ pr.1 c1 hc1 hnd2]
    rfl
  have h1 : e'.id ≤ c1 := by
    rw [← hc1v, ← hkey]
    exact part2 pr' hpr' e' he'
  have h2 : c1 < e.id := by
    apply xread_mem_gt store pr.1 c1 5 e
    rw [← hread]
    exact he
  exact lt_of_le_of_lt h1 h2

theorem C5_filter_emits_cursor_advances_witness :
    ((([("a", (0 : Nat)), ("b", 0)] : List (String × Nat)).map Prod.fst).Nodup ∧
     (∀ p ∈ ([("a", (0 : Nat)), ("b", 0)] : List (String × Nat)),
       WFChannel (storeGet
         [("a", [⟨1, [("user_id", "u")]⟩, ⟨2, [("user_id", "v")]⟩,
                 ⟨3, [("user_id", "u"), ("event_type", "x")]⟩])] p.1))) ∧
    (deliverChans "u" (xreadMulti
        [("a", [⟨1, [("user_id", "u")]⟩, ⟨2, [("user_id", "v")]⟩,
                ⟨3, [("user_id", "u"), ("event_type", "x")]⟩])]
        [("a", 0), ("b", 0)] 5) [("a", 0), ("b", 0)]).1 =
      ((xreadMulti
        [("a", [⟨1, [("user_id", "u")]⟩, ⟨2, [("user_id", "v")]⟩,
                ⟨3, [("user_id", "u"), ("event_type", "x")]⟩])]
        [("a", 0), ("b", 0)] 5).map (fun p =>
        (p.2.filter (fun e => is_user_event e.fields "u")).map (fun e =>
          format_sse_message (pyGetD e.fields "event_type" "notification")
            e.fields))).flatten :=
  ⟨⟨by decide, by decide⟩,
   (C5_filter_emits_cursor_advances "u"
     [("a", [⟨1, [("user_id", "u")]⟩, ⟨2, [("user_id", "v")]⟩,
             ⟨3, [("user_id", "u"), ("event_type", "x")]⟩])]
     [("a", 0), ("b", 0)] (by decide) (by decide)).1⟩

end PipAI
